import Mathlib

/-!
# Verification of the AntiHub backend authentication core

Shallow embedding of the authentication and session-lifecycle engine of the
AntiHub backend (FastAPI/Python), together with proofs of the spec's claims.

Embedded source files:
* `app/services/auth_service.py` (`AuthService`)
* `app/services/oidc_provider_service.py` (`OIDCProviderService`)
* `app/services/oauth_service.py` (`OAuthService`, the legacy single-provider flow)
* `app/services/oidc_provider_registry.py` (`OIDCProviderRegistry`)
* `app/core/config.py` (`Settings`)
* `app/schemas/oidc.py` (`OIDCProviderConfig`, `OIDCUserInfo`)

The repository's `app/core/security.py` (JWT codec helpers),
`app/core/exceptions.py`, `app/cache/redis_client.py` and
`app/schemas/token.py` are not part of the sources; those pieces are
modelled from the spec, and each such definition says so in its doc comment.

Conventions of the embedding:
* Python `Optional[T]` becomes `Option T`; Python truthiness of strings and
  optionals is made explicit (`None` and `""` are falsy).
* `raise`/`except` control flow becomes `Except`-valued functions; a Python
  `try` body is computed first and its error inspected by the handler, exactly
  mirroring the source's `except` clauses.
* The Redis-backed TTL key-value store is modelled as an association list from
  key strings to stored values; TTLs are carried where the claims need them.
* JSON objects are association lists from strings to a `JsonValue`; a key that
  is present with JSON `null` is distinct from an absent key, matching the
  difference between Python's `dict.get` and the `in` operator.
-/

set_option autoImplicit false

namespace AntiHub

/-- JSON values as they appear in provider payloads and error details
(strings, integers, booleans and `null` suffice for the embedded code). -/
inductive JsonValue where
  | str (s : String)
  | int (n : Int)
  | bool (b : Bool)
  | null
  deriving DecidableEq, Repr

/-- A JSON object: association list from field names to values. -/
abbrev JsonObj := List (String × JsonValue)

/-- Python `d.get(k)`: `None` both for an absent key and for a stored `null`
is modelled by returning `.null` for an absent key (Python's `None`). -/
def jsonGet (d : JsonObj) (k : String) : JsonValue :=
  (d.lookup k).getD .null

/-- Python `d.get(k, default)`: the default applies only when the key is
absent; a stored `null` is returned as-is. -/
def jsonGetD (d : JsonObj) (k : String) (default : JsonValue) : JsonValue :=
  (d.lookup k).getD default

/-- Python truthiness of a JSON value: `None`, `""`, `0` and `False` are falsy. -/
def JsonValue.truthy : JsonValue → Bool
  | .null => false
  | .str s => !s.isEmpty
  | .int n => n != 0
  | .bool b => b

/-- Python `str(v)` on a JSON value (`str(None) = "None"`). -/
def JsonValue.pyStr : JsonValue → String
  | .null => "None"
  | .str s => s
  | .int n => toString n
  | .bool b => if b then "True" else "False"

/-- Whether `pat` occurs as a contiguous sublist of the haystack. -/
def listContainsSublist (pat : List Char) : List Char → Bool
  | [] => pat.isEmpty
  | h :: t => pat.isPrefixOf (h :: t) || listContainsSublist pat t

/-- Python `pat in s` substring test. -/
def containsSubstr (s pat : String) : Bool :=
  listContainsSublist pat.data s.data

/-- Python `s.lower()` (ASCII case folding, the only case the matched
messages use). -/
def strToLower (s : String) : String :=
  ⟨s.data.map Char.toLower⟩

/-- Python truthiness of an `Optional[str]`: `None` and `""` are falsy. -/
def truthyOptStr : Option String → Bool
  | none => false
  | some s => !s.isEmpty

/-- Python `v or default` on an `Optional`/falsy string value. -/
def pyOrStr (v : Option String) (default : String) : String :=
  match v with
  | none => default
  | some s => if s.isEmpty then default else s

-- ==================== app/models/user.py (the fields the core reads) ====================

/-- The `User` row fields read by the authentication core
(`app/models/user.py`): id, username, optional password hash, active flag. -/
structure User where
  id : Int
  username : String
  password_hash : Option String
  is_active : Bool
  deriving DecidableEq, Repr

-- ==================== app/core/exceptions.py (modelled) ====================

/-- Modelled from the spec: `app/core/exceptions.py` is absent from `src/`.
§7 lists the error kinds; each application exception carries a `message` and
optional structured `details`, and `str(e)` is its message. -/
inductive AuthError where
  | invalidCredentials (message : String) (details : JsonObj)
  | accountDisabled (message : String) (details : JsonObj)
  | invalidToken (message : String) (details : JsonObj)
  | tokenExpired (message : String)
  | tokenBlacklisted (message : String) (details : JsonObj)
  | userNotFound (message : String) (details : JsonObj)
  | invalidOAuthState (message : String) (details : JsonObj)
  deriving DecidableEq, Repr

/-- The message of an application error (what `str(e)` yields). -/
def AuthError.message : AuthError → String
  | .invalidCredentials m _ => m
  | .accountDisabled m _ => m
  | .invalidToken m _ => m
  | .tokenExpired m => m
  | .tokenBlacklisted m _ => m
  | .userNotFound m _ => m
  | .invalidOAuthState m _ => m

/-- Discriminates the error kind, mirroring `isinstance` checks at the API
boundary (`app/api/deps.py` catches the three token kinds separately). -/
inductive AuthErrorKind where
  | invalidCredentials
  | accountDisabled
  | invalidToken
  | tokenExpired
  | tokenBlacklisted
  | userNotFound
  | invalidOAuthState
  deriving DecidableEq, Repr

/-- The kind of an application error. -/
def AuthError.kind : AuthError → AuthErrorKind
  | .invalidCredentials _ _ => .invalidCredentials
  | .accountDisabled _ _ => .accountDisabled
  | .invalidToken _ _ => .invalidToken
  | .tokenExpired _ => .tokenExpired
  | .tokenBlacklisted _ _ => .tokenBlacklisted
  | .userNotFound _ _ => .userNotFound
  | .invalidOAuthState _ _ => .invalidOAuthState

-- ==================== AuthService.authenticate_user ====================

/-- `AuthService.authenticate_user` (`app/services/auth_service.py` 47–92).
The user lookup `self.user_repo.get_by_username(username)` is passed in as
its result (`lookup`), and the password check `verify_password` — the
Credential Verifier of §4.2, whose implementation lives in the absent
`app/core/security.py` — is passed in as a boolean function `vp`.
Python's `if not user.password_hash` treats both `None` and `""` as unset. -/
def authenticate_user (vp : String → String → Bool) (lookup : Option User)
    (username password : String) : Except AuthError User :=
  match lookup with
  | none =>
      .error (.invalidCredentials "用户名或密码错误" [("username", .str username)])
  | some user =>
      match user.password_hash with
      | none => .error (.invalidCredentials "该账号未设置密码,请使用 OAuth 登录" [])
      | some h =>
          if h.isEmpty then
            .error (.invalidCredentials "该账号未设置密码,请使用 OAuth 登录" [])
          else if !(vp password h) then
            .error (.invalidCredentials "用户名或密码错误" [])
          else if !user.is_active then
            .error (.accountDisabled "账号已被禁用" [("user_id", .int user.id)])
          else
            .ok user

-- ==================== app/core/security.py (modelled) ====================

/-- A JWT as the codec sees it: whether the string parses as a JWT at all,
whether its signature verifies against the process secret, its expiry
timestamp (`exp`, seconds since epoch), and its claims (`sub`, `jti`). -/
structure Token where
  wellFormed : Bool
  sigOk : Bool
  exp : Int
  jti : Option String
  sub : String
  deriving DecidableEq, Repr

/-- The decoded claim set (`app/schemas/token.py` `TokenPayload`, absent from
`src/`; modelled from the spec's claim set `jti`, subject, expiry). -/
structure TokenPayload where
  sub : String
  jti : Option String
  exp : Int
  deriving DecidableEq, Repr

/-- The JWT library's verification failures, with the `str(e)` text the
catch-all in `AuthService.verify_token` matches against ("expired" is a
substring only of the expiry failure's message). -/
inductive JwtError where
  | malformed
  | invalidSignature
  | expiredSignature
  deriving DecidableEq, Repr

/-- `str(e)` of a JWT library error. -/
def JwtError.str : JwtError → String
  | .malformed => "Not enough segments"
  | .invalidSignature => "Signature verification failed"
  | .expiredSignature => "Signature has expired"

/-- Modelled from the spec: `verify_access_token` lives in
`app/core/security.py`, absent from `src/`. §4.1: `verify` fails with the
Invalid kind if the signature does not match and with the Expired kind if the
current time is past the expiry claim — distinguished error kinds. `now` is
the current time in seconds since the epoch. -/
def verify_access_token (now : Int) (t : Token) : Except JwtError TokenPayload :=
  if !t.wellFormed then .error .malformed
  else if !t.sigOk then .error .invalidSignature
  else if t.exp ≤ now then .error .expiredSignature
  else .ok { sub := t.sub, jti := t.jti, exp := t.exp }

/-- Modelled from the spec: `extract_token_jti` lives in
`app/core/security.py`, absent from `src/`. §4.1:
`token_identifier(token) -> jti | null`, null when the token does not parse
or carries no `jti` claim. -/
def extract_token_jti (t : Token) : Option String :=
  if t.wellFormed then t.jti else none

/-- Modelled from the spec: `get_token_remaining_seconds` lives in
`app/core/security.py`, absent from `src/`. §4.1:
`remaining_seconds(token) -> int | null`, the seconds until the `exp` claim,
null when the token does not parse. -/
def get_token_remaining_seconds (now : Int) (t : Token) : Option Int :=
  if t.wellFormed then some (t.exp - now) else none

-- ==================== AuthService.verify_token ====================

/-- The exceptions that can be raised inside the `try` block of
`AuthService.verify_token`, with the text `str(e)` yields for each:
the JWT library errors out of `verify_access_token`, and the application
errors raised by the function body itself. -/
inductive VerifyTokenExc where
  | jwt (e : JwtError)
  | app (e : AuthError)
  deriving DecidableEq, Repr

/-- `str(e)` of an exception inside `verify_token`'s `try` block. -/
def VerifyTokenExc.str : VerifyTokenExc → String
  | .jwt e => e.str
  | .app e => e.message

/-- The body of the `try` block of `AuthService.verify_token`
(`app/services/auth_service.py` 131–145): codec verification, then
blacklist lookup by `jti` (skipped for a falsy `jti`), raising
`TokenBlacklistedError` on a hit. The blacklist set (`redis`) is passed as
the list of currently blacklisted `jti`s. -/
def verify_token_try_body (blacklist : List String) (now : Int) (t : Token) :
    Except VerifyTokenExc TokenPayload :=
  match verify_access_token now t with
  | .error e => .error (.jwt e)
  | .ok payload =>
      match payload.jti with
      | some jti =>
          if !jti.isEmpty && blacklist.contains jti then
            .error (.app (.tokenBlacklisted "令牌已失效" [("jti", .str jti)]))
          else .ok payload
      | none => .ok payload

/-- `AuthService.verify_token` (`app/services/auth_service.py` 116–153):
runs the `try` body, and the `except Exception` handler re-raises any
exception as `TokenExpiredError` when `"expired" in str(e).lower()` and as
`InvalidTokenError` otherwise. -/
def verify_token (blacklist : List String) (now : Int) (t : Token) :
    Except AuthError TokenPayload :=
  match verify_token_try_body blacklist now t with
  | .ok p => .ok p
  | .error e =>
      if containsSubstr (strToLower e.str) "expired" then
        .error (.tokenExpired "令牌已过期")
      else
        .error (.invalidToken "令牌无效" [("error", .str e.str)])

-- ==================== AuthService.blacklist_token ====================

/-- The blacklist namespace of the State Store: entries `(jti, ttl)`.
Modelled from the spec: `app/cache/redis_client.py` is absent from `src/`;
§4.3 `blacklist(jti, ttl)` inserts an entry that self-expires after `ttl`. -/
abbrev BlacklistStore := List (String × Int)

/-- Modelled from the spec: `RedisClient.blacklist_token` (§4.3
`blacklist(jti, ttl)`): insert the entry, report success. -/
def redis_blacklist_token (store : BlacklistStore) (jti : String) (ttl : Int) :
    BlacklistStore × Bool :=
  ((jti, ttl) :: store, true)

/-- `AuthService.blacklist_token` (`app/services/auth_service.py` 244–266):
extract the `jti` (a falsy `jti` returns `False`); a missing or non-positive
remaining TTL is success without touching the store; otherwise insert the
entry with exactly the remaining TTL. Returns the updated blacklist store
and the boolean result. -/
def blacklist_token (now : Int) (store : BlacklistStore) (t : Token) :
    BlacklistStore × Bool :=
  match extract_token_jti t with
  | none => (store, false)
  | some jti =>
      if jti.isEmpty then (store, false)
      else
        match get_token_remaining_seconds now t with
        | none => (store, true)
        | some remaining =>
            if remaining ≤ 0 then (store, true)
            else redis_blacklist_token store jti remaining

-- ==================== app/core/config.py ====================

/-- The `Settings` fields the OAuth/OIDC core reads (`app/core/config.py`).
Fields without an environment override default to `""`; the endpoint URLs of
Linux.do and GitHub are hardcoded in the class body. -/
structure Settings where
  linuxdo_client_id : String := ""
  linuxdo_client_secret : String := ""
  linuxdo_redirect_uri : String := ""
  linuxdo_authorization_endpoint : String := "https://connect.linux.do/oauth2/authorize"
  linuxdo_token_endpoint : String := "https://connect.linux.do/oauth2/token"
  linuxdo_user_info_endpoint : String := "https://connect.linux.do/api/user"
  github_client_id : String := ""
  github_client_secret : String := ""
  github_redirect_uri : String := ""
  github_authorize_url : String := "https://github.com/login/oauth/authorize"
  github_token_url : String := "https://github.com/login/oauth/access_token"
  github_user_api_url : String := "https://api.github.com/user"
  pocketid_base_url : String := ""
  pocketid_client_id : String := ""
  pocketid_client_secret : String := ""
  pocketid_redirect_uri : String := ""
  deriving DecidableEq, Repr

/-- `Settings.linuxdo_enabled` (`app/core/config.py` 148–151):
`bool(client_id and client_secret)`, i.e. both strings non-empty. -/
def Settings.linuxdo_enabled (s : Settings) : Bool :=
  !s.linuxdo_client_id.isEmpty && !s.linuxdo_client_secret.isEmpty

/-- `Settings.github_enabled` (`app/core/config.py` 153–156). -/
def Settings.github_enabled (s : Settings) : Bool :=
  !s.github_client_id.isEmpty && !s.github_client_secret.isEmpty

/-- `Settings.pocketid_enabled` (`app/core/config.py` 158–165):
additionally requires a non-empty base URL. -/
def Settings.pocketid_enabled (s : Settings) : Bool :=
  !s.pocketid_base_url.isEmpty && !s.pocketid_client_id.isEmpty
    && !s.pocketid_client_secret.isEmpty

-- ==================== app/schemas/oidc.py ====================

/-- `OIDCProviderType` (`app/schemas/oidc.py` 10–16). -/
inductive OIDCProviderType where
  | linux_do
  | github
  | google
  | pocketid
  | generic
  deriving DecidableEq, Repr

/-- `OIDCProviderConfig` (`app/schemas/oidc.py` 19–57): endpoints, client
credentials, scope, client-authentication style and the user-info field map
of one provider. -/
structure OIDCProviderConfig where
  provider_id : String
  provider_name : String
  provider_type : OIDCProviderType
  authorization_endpoint : String
  token_endpoint : String
  userinfo_endpoint : String
  client_id : String
  client_secret : String
  redirect_uri : String
  scope : String := "openid profile email"
  response_type : String := "code"
  user_info_mapping : List (String × String) := []
  extra_authorize_params : List (String × String) := []
  extra_token_params : List (String × String) := []
  use_basic_auth : Bool := true
  token_headers : List (String × String) := []
  userinfo_headers : List (String × String) := []
  deriving DecidableEq, Repr

/-- `OIDCUserInfo` (`app/schemas/oidc.py` 73–96). The Python dataclass does
not validate field types, so a mapped value keeps whatever JSON shape the
provider sent; `trust_level` is declared `int = 0`. -/
structure OIDCUserInfo where
  sub : String
  provider : String
  username : JsonValue := .null
  email : JsonValue := .null
  email_verified : JsonValue := .null
  name : JsonValue := .null
  given_name : JsonValue := .null
  family_name : JsonValue := .null
  picture : JsonValue := .null
  locale : JsonValue := .null
  trust_level : JsonValue := .int 0
  raw_data : JsonObj := []
  deriving DecidableEq, Repr

/-- `mapping.get(k, default)` over the provider field map. -/
def mappingGetD (m : List (String × String)) (k default : String) : String :=
  (m.lookup k).getD default

/-- `OIDCUserInfo.from_provider_data` (`app/schemas/oidc.py` 98–133):
apply the provider's field map to the raw JSON. Every optional field uses
`provider_data.get(mapped_key)` (Python `None` for an absent key, i.e.
`.null`); `trust_level` alone passes the default `0`, so only an absent
key — not a present `null` — falls back to `0`. -/
def from_provider_data (provider_data : JsonObj) (cfg : OIDCProviderConfig) :
    OIDCUserInfo :=
  let mapping := cfg.user_info_mapping
  { sub := (jsonGet provider_data (mappingGetD mapping "sub" "id")).pyStr
    provider := cfg.provider_id
    username := jsonGet provider_data (mappingGetD mapping "username" "username")
    email := jsonGet provider_data (mappingGetD mapping "email" "email")
    email_verified := jsonGet provider_data (mappingGetD mapping "email_verified" "email_verified")
    name := jsonGet provider_data (mappingGetD mapping "name" "name")
    given_name := jsonGet provider_data (mappingGetD mapping "given_name" "given_name")
    family_name := jsonGet provider_data (mappingGetD mapping "family_name" "family_name")
    picture := jsonGet provider_data (mappingGetD mapping "picture" "avatar_url")
    locale := jsonGet provider_data (mappingGetD mapping "locale" "locale")
    trust_level := jsonGetD provider_data (mappingGetD mapping "trust_level" "trust_level") (.int 0)
    raw_data := provider_data }

-- ==================== app/services/oidc_provider_registry.py ====================

/-- `OIDCProviderRegistry.get_linux_do_config`
(`app/services/oidc_provider_registry.py` 42–73). -/
def get_linux_do_config (s : Settings) : OIDCProviderConfig :=
  { provider_id := "linux_do"
    provider_name := "Linux.do"
    provider_type := .linux_do
    authorization_endpoint := s.linuxdo_authorization_endpoint
    token_endpoint := s.linuxdo_token_endpoint
    userinfo_endpoint := s.linuxdo_user_info_endpoint
    client_id := s.linuxdo_client_id
    client_secret := s.linuxdo_client_secret
    redirect_uri := s.linuxdo_redirect_uri
    scope := "openid profile email"
    use_basic_auth := true
    user_info_mapping := [("sub", "id"), ("username", "username"),
      ("name", "name"), ("email", "email"), ("picture", "avatar_url"),
      ("trust_level", "trust_level")] }

/-- `OIDCProviderRegistry.get_github_config`
(`app/services/oidc_provider_registry.py` 75–109). -/
def get_github_config (s : Settings) : OIDCProviderConfig :=
  { provider_id := "github"
    provider_name := "GitHub"
    provider_type := .github
    authorization_endpoint := s.github_authorize_url
    token_endpoint := s.github_token_url
    userinfo_endpoint := s.github_user_api_url
    client_id := s.github_client_id
    client_secret := s.github_client_secret
    redirect_uri := s.github_redirect_uri
    scope := "read:user user:email"
    use_basic_auth := false
    token_headers := [("Accept", "application/json")]
    userinfo_headers := [("Accept", "application/vnd.github.v3+json")]
    user_info_mapping := [("sub", "id"), ("username", "login"),
      ("name", "name"), ("email", "email"), ("picture", "avatar_url"),
      ("trust_level", "trust_level")] }

/-- Python `str.rstrip('/')`. -/
def rstripSlash (s : String) : String :=
  s.dropRightWhile (· == '/')

/-- `OIDCProviderRegistry.get_pocketid_config`
(`app/services/oidc_provider_registry.py` 111–150): endpoints are derived
from the base URL with its trailing slashes stripped. -/
def get_pocketid_config (s : Settings) : OIDCProviderConfig :=
  let base_url := rstripSlash s.pocketid_base_url
  { provider_id := "pocketid"
    provider_name := "PocketID"
    provider_type := .pocketid
    authorization_endpoint := base_url ++ "/authorize"
    token_endpoint := base_url ++ "/token"
    userinfo_endpoint := base_url ++ "/userinfo"
    client_id := s.pocketid_client_id
    client_secret := s.pocketid_client_secret
    redirect_uri := s.pocketid_redirect_uri
    scope := "openid profile email"
    use_basic_auth := true
    user_info_mapping := [("sub", "sub"), ("username", "preferred_username"),
      ("name", "name"), ("email", "email"),
      ("email_verified", "email_verified"), ("picture", "picture"),
      ("trust_level", "trust_level")] }

/-- `OIDCProviderRegistry.is_provider_enabled`
(`app/services/oidc_provider_registry.py` 22–40). -/
def is_provider_enabled (s : Settings) (provider_id : String) : Bool :=
  if provider_id = "linux_do" then s.linuxdo_enabled
  else if provider_id = "github" then s.github_enabled
  else if provider_id = "pocketid" then s.pocketid_enabled
  else false

/-- `OAuthError` as raised by the registry (`app/core/exceptions.py` is
absent from `src/`; the registry raises one exception class with an
`error_code` field distinguishing the two kinds, per §7 error kinds are not
exception class names). -/
structure OAuthErrorData where
  message : String
  error_code : String
  details : JsonObj
  deriving DecidableEq, Repr

/-- The `provider_configs` dict of `get_provider_config`
(`app/services/oidc_provider_registry.py` 166–172). -/
def providerConfigGetter (provider_id : String) :
    Option (Settings → OIDCProviderConfig) :=
  if provider_id = "linux_do" then some get_linux_do_config
  else if provider_id = "github" then some get_github_config
  else if provider_id = "pocketid" then some get_pocketid_config
  else none

/-- `OIDCProviderRegistry.get_provider_config`
(`app/services/oidc_provider_registry.py` 152–188): unknown identifier ⟶
`UNSUPPORTED_PROVIDER`; known but not enabled ⟶ `PROVIDER_NOT_CONFIGURED`;
otherwise the provider's populated configuration. -/
def get_provider_config (s : Settings) (provider_id : String) :
    Except OAuthErrorData OIDCProviderConfig :=
  match providerConfigGetter provider_id with
  | none =>
      .error { message := "不支持的 OAuth 提供商: " ++ provider_id
               error_code := "UNSUPPORTED_PROVIDER"
               details := [("provider_id", .str provider_id)] }
  | some config_getter =>
      if !is_provider_enabled s provider_id then
        .error { message := "OAuth 提供商未配置: " ++ provider_id
                 error_code := "PROVIDER_NOT_CONFIGURED"
                 details := [("provider_id", .str provider_id)] }
      else
        .ok (config_getter s)

-- ==================== State Store (CSRF state namespace) ====================

/-- What one stored CSRF state holds: the optional extra payload passed to
`store_state` (`data: Optional[Dict] = None`). -/
abbrev StateData := Option JsonObj

/-- The CSRF-state namespace of the State Store: association list from key
strings to stored payloads. -/
abbrev StateStore := List (String × StateData)

/-- Modelled from the spec: `RedisClient.store_oauth_state` lives in
`app/cache/redis_client.py`, absent from `src/`. §4.3
`put_state(key, payload?, ttl)`: store the payload under the key (a repeated
put overwrites), report success. -/
def redis_store_oauth_state (store : StateStore) (key : String)
    (data : StateData) : StateStore × Bool :=
  ((key, data) :: store.filter (fun p => p.1 ≠ key), true)

/-- Modelled from the spec: `RedisClient.verify_oauth_state` lives in
`app/cache/redis_client.py`, absent from `src/`. §4.3
`take_state(key) -> payload | not_found` is an atomic read-then-delete: the
stored payload (distinguished from `not_found` even when the stored payload
is empty) is returned and the key removed, so no second caller can observe
the same state. -/
def redis_verify_oauth_state (store : StateStore) (key : String) :
    Option StateData × StateStore :=
  (store.lookup key, store.filter (fun p => p.1 ≠ key))

-- ==================== OIDCProviderService: state handling ====================

/-- The state key of `OIDCProviderService.store_state` / `verify_state`
(`app/services/oidc_provider_service.py` 79 and 96):
`f"oidc:{provider_id}:state:{state}"`. -/
def oidcStateKey (cfg : OIDCProviderConfig) (state : String) : String :=
  "oidc:" ++ cfg.provider_id ++ ":state:" ++ state

/-- `OIDCProviderService.store_state`
(`app/services/oidc_provider_service.py` 62–80). -/
def oidc_store_state (cfg : OIDCProviderConfig) (store : StateStore)
    (state : String) (data : StateData) : StateStore × Bool :=
  redis_store_oauth_state store (oidcStateKey cfg state) data

/-- `OIDCProviderService.verify_state`
(`app/services/oidc_provider_service.py` 82–103): take the namespaced key
from the store; `None` ⟶ `InvalidOAuthStateError`, otherwise return the
stored payload. -/
def oidc_verify_state (cfg : OIDCProviderConfig) (store : StateStore)
    (state : String) : Except AuthError StateData × StateStore :=
  match redis_verify_oauth_state store (oidcStateKey cfg state) with
  | (none, store') =>
      (.error (.invalidOAuthState
          ("无效的 " ++ cfg.provider_name ++ " OAuth state")
          [("state", .str state), ("provider", .str cfg.provider_id)]),
        store')
  | (some data, store') => (.ok data, store')

-- ==================== OAuthService (legacy): state handling ====================

/-- `OAuthService.store_state` (`app/services/oauth_service.py` 52–69): the
legacy single-provider flow passes the raw state string as the store key —
no provider namespace. -/
def oauth_store_state (store : StateStore) (state : String)
    (data : StateData) : StateStore × Bool :=
  redis_store_oauth_state store state data

/-- `OAuthService.verify_state` (`app/services/oauth_service.py` 71–91). -/
def oauth_verify_state (store : StateStore) (state : String) :
    Except AuthError StateData × StateStore :=
  match redis_verify_oauth_state store state with
  | (none, store') =>
      (.error (.invalidOAuthState "无效的 OAuth state" [("state", .str state)]),
        store')
  | (some data, store') => (.ok data, store')

-- ==================== OIDCProviderService: token exchange ====================

/-- `OAuthTokenData` (`app/schemas/token.py`, absent from `src/`; modelled
from the spec's return shape `{access_token, refresh_token?, expires_in,
scope}` and the constructor calls in the source, which pass each field
straight from `token_data.get(...)`). -/
structure OAuthTokenData where
  access_token : JsonValue
  refresh_token : JsonValue
  token_type : JsonValue
  expires_in : JsonValue
  scope : JsonValue
  deriving DecidableEq, Repr

/-- `OAuthTokenExchangeError` / `OAuthUserInfoError` payload: message plus
diagnostic details (`app/core/exceptions.py` absent from `src/`; §7: these
kinds carry diagnostic detail such as status code and raw body). -/
structure OAuthExchangeError where
  message : String
  details : JsonObj
  deriving DecidableEq, Repr

/-- What the token endpoint interaction produced, as seen by the `except`
clauses: a response (status code, raw text, and its JSON parse — `none` when
`response.json()` raises), or a network-level `httpx.HTTPError` with its
`str(e)`. -/
inductive TokenEndpointOutcome where
  | resp (status_code : Int) (text : String) (json : Option JsonObj)
  | netError (errStr : String)
  deriving DecidableEq, Repr

/-- `str(e)` of a JSON decode failure inside the `try` body (caught by the
generic `except Exception` clause; modelled text). -/
def jsonDecodeErrorStr : String := "Expecting value: line 1 column 1 (char 0)"

/-- `OIDCProviderService.exchange_code_for_token`
(`app/services/oidc_provider_service.py` 136–226), with the network
interaction abstracted into its outcome. Non-200 status ⟶
`OAuthTokenExchangeError` with the status code and raw body as details; a
JSON body containing an `error` key ⟶ `OAuthTokenExchangeError` whose
details are the whole body; a JSON parse failure is caught by the generic
`except Exception` clause and wrapped in the same kind; `httpx.HTTPError` ⟶
the same kind with the network error string. -/
def exchange_code_for_token (cfg : OIDCProviderConfig)
    (outcome : TokenEndpointOutcome) : Except OAuthExchangeError OAuthTokenData :=
  match outcome with
  | .netError errStr =>
      .error { message := cfg.provider_name ++ " OAuth 令牌交换请求失败"
               details := [("error", .str errStr),
                 ("provider", .str cfg.provider_id)] }
  | .resp status_code text json =>
      if status_code ≠ 200 then
        .error { message := cfg.provider_name ++ " OAuth 令牌交换失败"
                 details := [("status_code", .int status_code),
                   ("response", .str text),
                   ("provider", .str cfg.provider_id)] }
      else
        match json with
        | none =>
            .error { message := cfg.provider_name ++ " OAuth 令牌交换失败"
                     details := [("error", .str jsonDecodeErrorStr),
                       ("provider", .str cfg.provider_id)] }
        | some token_data =>
            if (token_data.lookup "error").isSome then
              .error { message := cfg.provider_name ++ " OAuth 错误: "
                         ++ (jsonGetD token_data "error_description"
                              (jsonGet token_data "error")).pyStr
                       details := token_data }
            else
              .ok { access_token := jsonGet token_data "access_token"
                    refresh_token := jsonGet token_data "refresh_token"
                    token_type := jsonGetD token_data "token_type" (.str "bearer")
                    expires_in := jsonGet token_data "expires_in"
                    scope := jsonGet token_data "scope" }

/-- `OIDCProviderService.refresh_access_token`
(`app/services/oidc_provider_service.py` 293–368): like the code exchange
but with no error-field check on a 200 body, and
`refresh_token := token_data.get("refresh_token") or refresh_token`, so a
missing, `null` or empty (falsy) response value keeps the caller's
refresh token. -/
def refresh_access_token (cfg : OIDCProviderConfig) (refresh_token : String)
    (outcome : TokenEndpointOutcome) : Except OAuthExchangeError OAuthTokenData :=
  match outcome with
  | .netError errStr =>
      .error { message := cfg.provider_name ++ " OAuth 令牌刷新请求失败"
               details := [("error", .str errStr),
                 ("provider", .str cfg.provider_id)] }
  | .resp status_code text json =>
      if status_code ≠ 200 then
        .error { message := cfg.provider_name ++ " OAuth 令牌刷新失败"
                 details := [("status_code", .int status_code),
                   ("response", .str text),
                   ("provider", .str cfg.provider_id)] }
      else
        match json with
        | none =>
            .error { message := cfg.provider_name ++ " OAuth 令牌刷新失败"
                     details := [("error", .str jsonDecodeErrorStr),
                       ("provider", .str cfg.provider_id)] }
        | some token_data =>
            .ok { access_token := jsonGet token_data "access_token"
                  refresh_token :=
                    if (jsonGet token_data "refresh_token").truthy then
                      jsonGet token_data "refresh_token"
                    else .str refresh_token
                  token_type := jsonGetD token_data "token_type" (.str "bearer")
                  expires_in := jsonGet token_data "expires_in"
                  scope := jsonGet token_data "scope" }

-- ==================== Helper lemmas ====================

/-- Both store namespaces delete by filtering the key out: looking the key up
afterwards finds nothing. -/
theorem lookup_filter_key_eq_none {α : Type} (l : List (String × α)) (k : String) :
    (l.filter (fun p => p.1 ≠ k)).lookup k = none := by
  induction l with
  | nil => rfl
  | cons hd tl ih =>
      by_cases h : hd.1 = k
      · rw [List.filter_cons_of_neg (by simp [h])]
        exact ih
      · rw [List.filter_cons_of_pos (by simp [h])]
        have hb : (k == hd.1) = false := beq_eq_false_iff_ne.mpr (Ne.symm h)
        simp only [List.lookup, hb]
        exact ih

-- ==================== Claims ====================

/-- C1: the claim says a signature/expiry-valid token whose `jti` is
blacklisted fails `verify_token` with the TokenBlacklisted kind. The code
raises `TokenBlacklistedError` inside the `try` block of `verify_token`, so
its own `except Exception` handler catches it; its string carries no
"expired", so the handler re-raises it as `InvalidTokenError`. At the
failing input — a well-formed, signature-valid token expiring at 1000,
verified at time 0, with `jti` `"j1"` and `"j1"` blacklisted — the result is
the InvalidToken kind, not TokenBlacklisted. -/
theorem verify_token_blacklisted_wrapped_as_invalid :
    verify_token ["j1"] 0
        { wellFormed := true, sigOk := true, exp := 1000, jti := some "j1", sub := "42" }
      = .error (.invalidToken "令牌无效" [("error", .str "令牌已失效")]) ∧
    (AuthError.invalidToken "令牌无效" [("error", .str "令牌已失效")]).kind
      ≠ AuthErrorKind.tokenBlacklisted := by
  exact ⟨rfl, by decide⟩

/-- C4: `verify_token` distinguishes its failure kinds: a well-formed token
whose signature does not verify fails with the InvalidToken kind, while a
signature-valid token whose expiry is in the past fails with the distinct
TokenExpired kind (the catch-all maps the codec's expiry error — whose
message contains "expired" — to `TokenExpiredError` and every other codec
failure to `InvalidTokenError`). -/
theorem verify_token_distinguishes_expired_from_invalid
    (blacklist : List String) (now : Int) (t : Token) :
    (t.wellFormed = true → t.sigOk = false →
      verify_token blacklist now t
        = .error (.invalidToken "令牌无效"
            [("error", .str "Signature verification failed")])) ∧
    (t.wellFormed = true → t.sigOk = true → t.exp ≤ now →
      verify_token blacklist now t = .error (.tokenExpired "令牌已过期")) ∧
    AuthErrorKind.tokenExpired ≠ AuthErrorKind.invalidToken := by
  refine ⟨?_, ?_, by decide⟩
  · intro hw hs
    have hbody : verify_token_try_body blacklist now t
        = .error (.jwt .invalidSignature) := by
      simp [verify_token_try_body, verify_access_token, hw, hs]
    simp only [verify_token, hbody]
    rfl
  · intro hw hs hexp
    have hbody : verify_token_try_body blacklist now t
        = .error (.jwt .expiredSignature) := by
      simp [verify_token_try_body, verify_access_token, hw, hs, hexp]
    simp only [verify_token, hbody]
    rfl

/-- C4 witness: at time 100, a well-formed token with a bad signature is
InvalidToken and a signature-valid token that expired at 50 is TokenExpired. -/
theorem verify_token_distinguishes_expired_from_invalid_witness :
    verify_token [] 100
        { wellFormed := true, sigOk := false, exp := 1000, jti := some "a", sub := "1" }
      = .error (.invalidToken "令牌无效"
          [("error", .str "Signature verification failed")]) ∧
    verify_token [] 100
        { wellFormed := true, sigOk := true, exp := 50, jti := some "a", sub := "1" }
      = .error (.tokenExpired "令牌已过期") := by
  exact ⟨(verify_token_distinguishes_expired_from_invalid [] 100 _).1 rfl rfl,
    (verify_token_distinguishes_expired_from_invalid [] 100 _).2.1 rfl rfl (by decide)⟩

/-- C2: `authenticate_user` raises InvalidCredentials with the identical
message `"用户名或密码错误"` for an unknown username and for a wrong password
on an existing account; an account whose stored hash is unset (`None` or
`""`) raises InvalidCredentials with the distinguishing SSO detail message;
and an AccountDisabled outcome implies the password verified against the
stored hash. -/
theorem authenticate_user_error_discipline (vp : String → String → Bool)
    (u : User) (username password hash : String) :
    (authenticate_user vp none username password
      = .error (.invalidCredentials "用户名或密码错误" [("username", .str username)])) ∧
    (u.password_hash = some hash → hash.isEmpty = false → vp password hash = false →
      authenticate_user vp (some u) username password
        = .error (.invalidCredentials "用户名或密码错误" [])) ∧
    ((u.password_hash = none ∨ u.password_hash = some "") →
      authenticate_user vp (some u) username password
        = .error (.invalidCredentials "该账号未设置密码,请使用 OAuth 登录" [])) ∧
    (∀ e, authenticate_user vp (some u) username password = .error e →
      e.kind = .accountDisabled →
      ∃ h, u.password_hash = some h ∧ h.isEmpty = false ∧ vp password h = true) := by
  refine ⟨rfl, ?_, ?_, ?_⟩
  · intro hh hne hvp
    simp [authenticate_user, hh, hne, hvp]
  · rintro (hh | hh) <;>
      simp [authenticate_user, hh, show "".isEmpty = true from rfl]
  · intro e he hkind
    rcases hu : u.password_hash with _ | h
    · simp [authenticate_user, hu] at he
      subst he
      simp [AuthError.kind] at hkind
    · by_cases hie : h.isEmpty = true
      · simp [authenticate_user, hu, hie] at he
        subst he
        simp [AuthError.kind] at hkind
      · have hie' : h.isEmpty = false := by simpa using hie
        by_cases hvp : vp password h = true
        · exact ⟨h, rfl, hie', hvp⟩
        · have hvp' : vp password h = false := by simpa using hvp
          simp [authenticate_user, hu, hie', hvp'] at he
          subst he
          simp [AuthError.kind] at hkind

/-- C2 witness: with equality as the password check — wrong password on an
existing account yields the same generic message as an unknown username; an
OIDC-only account yields the SSO message; and the disabled-account outcome
certifies a verified password. -/
theorem authenticate_user_error_discipline_witness :
    (authenticate_user (fun p h => p == h)
        (some { id := 1, username := "alice", password_hash := some "pw", is_active := true })
        "alice" "wrong"
      = .error (.invalidCredentials "用户名或密码错误" [])) ∧
    (authenticate_user (fun p h => p == h)
        (some { id := 2, username := "bob", password_hash := none, is_active := true })
        "bob" "x"
      = .error (.invalidCredentials "该账号未设置密码,请使用 OAuth 登录" [])) ∧
    (∃ h, (some "pw" : Option String) = some h ∧ h.isEmpty = false
      ∧ ((fun (p h' : String) => p == h') "pw" h) = true) := by
  refine ⟨?_, ?_, ?_⟩
  · exact (authenticate_user_error_discipline (fun p h => p == h)
      { id := 1, username := "alice", password_hash := some "pw", is_active := true }
      "alice" "wrong" "pw").2.1 rfl (by decide) (by decide)
  · exact (authenticate_user_error_discipline (fun p h => p == h)
      { id := 2, username := "bob", password_hash := none, is_active := true }
      "bob" "x" "pw").2.2.1 (Or.inl rfl)
  · exact (authenticate_user_error_discipline (fun p h => p == h)
      { id := 3, username := "carol", password_hash := some "pw", is_active := false }
      "carol" "pw" "pw").2.2.2
      (.accountDisabled "账号已被禁用" [("user_id", .int 3)]) rfl rfl

/-- C3 counterexample: the claim says every already-expired token is a no-op
success of `revoke`. A well-formed token carrying no `jti` claim, expired
100 seconds ago, has remaining TTL `-100` — yet `blacklist_token` returns
`False` (the `jti` check precedes the expiry check), not success. -/
theorem blacklist_token_expired_no_jti_fails :
    get_token_remaining_seconds 0
        { wellFormed := true, sigOk := true, exp := -100, jti := none, sub := "7" }
      = some (-100) ∧
    blacklist_token 0 []
        { wellFormed := true, sigOk := true, exp := -100, jti := none, sub := "7" }
      = ([], false) := by
  exact ⟨rfl, rfl⟩

/-- C3 (amended): for every token with an extractable truthy `jti`, `revoke`
is a no-op success when the remaining TTL is absent or non-positive, and
otherwise inserts a blacklist entry whose TTL equals exactly the remaining
validity; when no truthy `jti` can be extracted it returns failure without
touching the store. -/
theorem blacklist_token_ttl_exact (now : Int) (store : BlacklistStore) (t : Token) :
    (truthyOptStr (extract_token_jti t) = false →
      blacklist_token now store t = (store, false)) ∧
    (∀ jti, extract_token_jti t = some jti → jti.isEmpty = false →
      (∀ r, get_token_remaining_seconds now t = some r → r ≤ 0 →
        blacklist_token now store t = (store, true)) ∧
      (get_token_remaining_seconds now t = none →
        blacklist_token now store t = (store, true)) ∧
      (∀ r, get_token_remaining_seconds now t = some r → 0 < r →
        blacklist_token now store t = ((jti, r) :: store, true))) := by
  constructor
  · intro hfalsy
    match hj : extract_token_jti t with
    | none => simp [blacklist_token, hj]
    | some jti =>
        simp [truthyOptStr, hj] at hfalsy
        simp [blacklist_token, hj, hfalsy]
  · intro jti hj hne
    refine ⟨?_, ?_, ?_⟩
    · intro r hr hle
      simp [blacklist_token, hj, hne, hr, if_pos hle]
    · intro hr
      simp [blacklist_token, hj, hne, hr]
    · intro r hr hpos
      simp [blacklist_token, hj, hne, hr, if_neg (not_le.mpr hpos),
        redis_blacklist_token]

/-- C3 witness: a token with `jti` `"j"` that expired 10 seconds ago is a
no-op success; the same token with 50 seconds left inserts `("j", 50)`; a
token without `jti` fails. -/
theorem blacklist_token_ttl_exact_witness :
    blacklist_token 0 []
        { wellFormed := true, sigOk := true, exp := -10, jti := some "j", sub := "1" }
      = ([], true) ∧
    blacklist_token 0 []
        { wellFormed := true, sigOk := true, exp := 50, jti := some "j", sub := "1" }
      = ([("j", 50)], true) ∧
    blacklist_token 0 []
        { wellFormed := true, sigOk := true, exp := 50, jti := none, sub := "1" }
      = ([], false) := by
  refine ⟨?_, ?_, ?_⟩
  · exact ((blacklist_token_ttl_exact 0 []
      { wellFormed := true, sigOk := true, exp := -10, jti := some "j", sub := "1" }).2
      "j" (by decide) (by decide)).1 (-10) (by decide) (by decide)
  · exact ((blacklist_token_ttl_exact 0 []
      { wellFormed := true, sigOk := true, exp := 50, jti := some "j", sub := "1" }).2
      "j" (by decide) (by decide)).2.2 50 (by decide) (by decide)
  · exact (blacklist_token_ttl_exact 0 []
      { wellFormed := true, sigOk := true, exp := 50, jti := none, sub := "1" }).1
      (by decide)

/-- A `verify_state` whose namespaced key is absent from the store fails
with `InvalidOAuthStateError`. -/
theorem oidc_verify_state_miss (cfg : OIDCProviderConfig) (store : StateStore)
    (state : String) (h : store.lookup (oidcStateKey cfg state) = none) :
    (oidc_verify_state cfg store state).1
      = .error (.invalidOAuthState ("无效的 " ++ cfg.provider_name ++ " OAuth state")
          [("state", .str state), ("provider", .str cfg.provider_id)]) := by
  simp [oidc_verify_state, redis_verify_oauth_state, h]

/-- `verify_state` always deletes its key from the store, found or not. -/
theorem oidc_verify_state_snd (cfg : OIDCProviderConfig) (store : StateStore)
    (state : String) :
    (oidc_verify_state cfg store state).2
      = store.filter (fun p => p.1 ≠ oidcStateKey cfg state) := by
  cases h : store.lookup (oidcStateKey cfg state) <;>
    simp [oidc_verify_state, redis_verify_oauth_state, h]

/-- C5: `verify_state` is single-use: the first call after `store_state`
returns the stored payload; a second call with the same value (the store
having deleted the key on first consumption) and any call with an unknown
value raise InvalidOAuthState. -/
theorem oidc_verify_state_single_use (cfg : OIDCProviderConfig)
    (store : StateStore) (state : String) (data : StateData) :
    ((oidc_verify_state cfg (oidc_store_state cfg store state data).1 state).1
      = .ok data) ∧
    ((oidc_verify_state cfg
        (oidc_verify_state cfg (oidc_store_state cfg store state data).1 state).2
        state).1
      = .error (.invalidOAuthState ("无效的 " ++ cfg.provider_name ++ " OAuth state")
          [("state", .str state), ("provider", .str cfg.provider_id)])) ∧
    (store.lookup (oidcStateKey cfg state) = none →
      (oidc_verify_state cfg store state).1
        = .error (.invalidOAuthState ("无效的 " ++ cfg.provider_name ++ " OAuth state")
            [("state", .str state), ("provider", .str cfg.provider_id)])) := by
  refine ⟨?_, ?_, fun hmiss => oidc_verify_state_miss cfg store state hmiss⟩
  · simp [oidc_verify_state, oidc_store_state, redis_store_oauth_state,
      redis_verify_oauth_state, List.lookup]
  · rw [oidc_verify_state_snd]
    exact oidc_verify_state_miss cfg _ state (lookup_filter_key_eq_none _ _)

/-- C5 witness: for the GitHub provider on an empty store — storing state
`"s1"` with no payload, the first verification returns the stored (empty)
payload, the second fails, and verifying the unknown `"s2"` fails. -/
theorem oidc_verify_state_single_use_witness :
    ((oidc_verify_state (get_github_config {})
        (oidc_store_state (get_github_config {}) [] "s1" none).1 "s1").1
      = .ok none) ∧
    ((oidc_verify_state (get_github_config {}) [] "s2").1
      = .error (.invalidOAuthState "无效的 GitHub OAuth state"
          [("state", .str "s2"), ("provider", .str "github")])) := by
  exact ⟨(oidc_verify_state_single_use (get_github_config {}) [] "s1" none).1,
    (oidc_verify_state_single_use (get_github_config {}) [] "s2" none).2.2 rfl⟩

/-- C8 counterexample: not every CSRF state key is provider-namespaced — the
legacy `OAuthService` uses the raw state string as the store key, so a state
stored by the GitHub OIDC provider flow (key `oidc:github:state:abc`) is
successfully consumed through the legacy flow by presenting that key text as
the state value, rather than always failing. -/
theorem legacy_state_key_not_namespaced :
    oidcStateKey (get_github_config {}) "abc" = "oidc:github:state:abc" ∧
    oauth_store_state [] "abc" none
      = ([("abc", none)], true) ∧
    (oauth_verify_state
        (oidc_store_state (get_github_config {}) [] "abc" none).1
        "oidc:github:state:abc").1
      = .ok none := by
  exact ⟨rfl, rfl, rfl⟩

/-- C8 (amended): the OIDC provider flow namespaces its state keys with the
provider identifier (`oidc:{provider_id}:state:{state}`), so for two
distinct providers the same state string maps to distinct store keys, and a
state stored by one OIDC provider is never consumed through another OIDC
provider's flow; the legacy `OAuthService` flow, by contrast, uses the raw
state as the key, un-namespaced. -/
theorem oidc_state_keys_provider_namespaced (p q : OIDCProviderConfig)
    (s : String) (hpq : p.provider_id ≠ q.provider_id) :
    oidcStateKey p s ≠ oidcStateKey q s ∧
    ∀ d, (oidc_verify_state q (oidc_store_state p [] s d).1 s).1
      = .error (.invalidOAuthState ("无效的 " ++ q.provider_name ++ " OAuth state")
          [("state", .str s), ("provider", .str q.provider_id)]) := by
  have hkey : oidcStateKey p s ≠ oidcStateKey q s := by
    intro h
    apply hpq
    have hdata : ("oidc:" ++ p.provider_id ++ ":state:" ++ s).data
        = ("oidc:" ++ q.provider_id ++ ":state:" ++ s).data := by
      rw [show oidcStateKey p s = "oidc:" ++ p.provider_id ++ ":state:" ++ s from rfl,
        show oidcStateKey q s = "oidc:" ++ q.provider_id ++ ":state:" ++ s from rfl] at h
      rw [h]
    simp only [String.data_append] at hdata
    have h1 := List.append_cancel_right hdata
    have h2 := List.append_cancel_right h1
    have h3 := List.append_cancel_left h2
    exact String.ext h3
  refine ⟨hkey, ?_⟩
  intro d
  have hb : (oidcStateKey q s == oidcStateKey p s) = false :=
    beq_eq_false_iff_ne.mpr (Ne.symm hkey)
  simp [oidc_verify_state, oidc_store_state, redis_store_oauth_state,
    redis_verify_oauth_state, List.lookup, hb]

/-- C8 (amended) witness: Linux.do and PocketID — whose namespaced keys have
equal length — map the same state `"abc"` to distinct keys, and a state
stored by Linux.do is not consumable through the PocketID flow. -/
theorem oidc_state_keys_provider_namespaced_witness :
    oidcStateKey (get_linux_do_config {}) "abc"
      ≠ oidcStateKey (get_pocketid_config {}) "abc" ∧
    (oidc_verify_state (get_pocketid_config {})
        (oidc_store_state (get_linux_do_config {}) [] "abc" none).1 "abc").1
      = .error (.invalidOAuthState "无效的 PocketID OAuth state"
          [("state", .str "abc"), ("provider", .str "pocketid")]) := by
  exact ⟨(oidc_state_keys_provider_namespaced (get_linux_do_config {})
      (get_pocketid_config {}) "abc" (by decide)).1,
    (oidc_state_keys_provider_namespaced (get_linux_do_config {})
      (get_pocketid_config {}) "abc" (by decide)).2 none⟩

/-- C6: `get_provider_config` raises the `UNSUPPORTED_PROVIDER` kind for
every identifier outside `{linux_do, github, pocketid}`; for a known
identifier it raises the distinct `PROVIDER_NOT_CONFIGURED` kind iff the
provider is not enabled — client id or secret empty, and for PocketID also
an empty base URL; otherwise it returns that provider's populated config. -/
theorem get_provider_config_error_kinds (s : Settings) (pid : String) :
    (pid ≠ "linux_do" → pid ≠ "github" → pid ≠ "pocketid" →
      get_provider_config s pid
        = .error { message := "不支持的 OAuth 提供商: " ++ pid
                   error_code := "UNSUPPORTED_PROVIDER"
                   details := [("provider_id", .str pid)] }) ∧
    (get_provider_config s "linux_do"
        = .error { message := "OAuth 提供商未配置: " ++ "linux_do"
                   error_code := "PROVIDER_NOT_CONFIGURED"
                   details := [("provider_id", .str "linux_do")] }
      ↔ (s.linuxdo_client_id.isEmpty ∨ s.linuxdo_client_secret.isEmpty)) ∧
    (get_provider_config s "github"
        = .error { message := "OAuth 提供商未配置: " ++ "github"
                   error_code := "PROVIDER_NOT_CONFIGURED"
                   details := [("provider_id", .str "github")] }
      ↔ (s.github_client_id.isEmpty ∨ s.github_client_secret.isEmpty)) ∧
    (get_provider_config s "pocketid"
        = .error { message := "OAuth 提供商未配置: " ++ "pocketid"
                   error_code := "PROVIDER_NOT_CONFIGURED"
                   details := [("provider_id", .str "pocketid")] }
      ↔ (s.pocketid_base_url.isEmpty ∨ s.pocketid_client_id.isEmpty
          ∨ s.pocketid_client_secret.isEmpty)) ∧
    (s.linuxdo_enabled = true →
      get_provider_config s "linux_do" = .ok (get_linux_do_config s)) ∧
    (s.github_enabled = true →
      get_provider_config s "github" = .ok (get_github_config s)
        ∧ (get_github_config s).client_id = s.github_client_id
        ∧ (get_github_config s).authorization_endpoint = s.github_authorize_url
        ∧ (get_github_config s).provider_id = "github") ∧
    (s.pocketid_enabled = true →
      get_provider_config s "pocketid" = .ok (get_pocketid_config s)) := by
  refine ⟨?_, ?_, ?_, ?_, ?_, ?_, ?_⟩
  · intro h1 h2 h3
    simp [get_provider_config, providerConfigGetter, h1, h2, h3]
  · cases ha : s.linuxdo_client_id.isEmpty <;>
      cases hb : s.linuxdo_client_secret.isEmpty <;>
        simp [get_provider_config, providerConfigGetter, is_provider_enabled,
          Settings.linuxdo_enabled, ha, hb]
  · cases ha : s.github_client_id.isEmpty <;>
      cases hb : s.github_client_secret.isEmpty <;>
        simp [get_provider_config, providerConfigGetter, is_provider_enabled,
          Settings.github_enabled, ha, hb]
  · cases ha : s.pocketid_base_url.isEmpty <;>
      cases hb : s.pocketid_client_id.isEmpty <;>
        cases hc : s.pocketid_client_secret.isEmpty <;>
          simp [get_provider_config, providerConfigGetter, is_provider_enabled,
            Settings.pocketid_enabled, ha, hb, hc]
  · intro h
    simp [get_provider_config, providerConfigGetter, is_provider_enabled, h]
  · intro h
    refine ⟨?_, rfl, rfl, rfl⟩
    simp [get_provider_config, providerConfigGetter, is_provider_enabled, h]
  · intro h
    simp [get_provider_config, providerConfigGetter, is_provider_enabled, h]

/-- C6 witness: with only GitHub credentials configured, `github` yields the
populated config, `linux_do` is `PROVIDER_NOT_CONFIGURED`, and `gitlab` is
`UNSUPPORTED_PROVIDER`. -/
theorem get_provider_config_error_kinds_witness :
    (get_provider_config { github_client_id := "id", github_client_secret := "sec" }
        "github"
      = .ok (get_github_config
          { github_client_id := "id", github_client_secret := "sec" })) ∧
    (get_provider_config { github_client_id := "id", github_client_secret := "sec" }
        "linux_do"
      = .error { message := "OAuth 提供商未配置: " ++ "linux_do"
                 error_code := "PROVIDER_NOT_CONFIGURED"
                 details := [("provider_id", .str "linux_do")] }) ∧
    (get_provider_config { github_client_id := "id", github_client_secret := "sec" }
        "gitlab"
      = .error { message := "不支持的 OAuth 提供商: " ++ "gitlab"
                 error_code := "UNSUPPORTED_PROVIDER"
                 details := [("provider_id", .str "gitlab")] }) := by
  refine ⟨?_, ?_, ?_⟩
  · exact ((get_provider_config_error_kinds
      { github_client_id := "id", github_client_secret := "sec" } "github").2.2.2.2.2.1
      (by decide)).1
  · exact (get_provider_config_error_kinds
      { github_client_id := "id", github_client_secret := "sec" } "github").2.1.mpr
      (Or.inl (by decide))
  · exact (get_provider_config_error_kinds
      { github_client_id := "id", github_client_secret := "sec" } "gitlab").1
      (by decide) (by decide) (by decide)

/-- C7: `exchange_code_for_token` fails with the `OAuthTokenExchangeError`
kind carrying the provider's diagnostic payload in every non-success case:
a network-level failure carries the error string, a non-200 status carries
the status code and raw body, and a 200 response whose JSON body contains an
`error` field carries that whole body as the details. -/
theorem exchange_code_for_token_failure_taxonomy (cfg : OIDCProviderConfig)
    (status_code : Int) (text errStr : String) (json : Option JsonObj)
    (body : JsonObj) :
    (exchange_code_for_token cfg (.netError errStr)
      = .error { message := cfg.provider_name ++ " OAuth 令牌交换请求失败"
                 details := [("error", .str errStr),
                   ("provider", .str cfg.provider_id)] }) ∧
    (status_code ≠ 200 →
      exchange_code_for_token cfg (.resp status_code text json)
        = .error { message := cfg.provider_name ++ " OAuth 令牌交换失败"
                   details := [("status_code", .int status_code),
                     ("response", .str text),
                     ("provider", .str cfg.provider_id)] }) ∧
    ((body.lookup "error").isSome = true →
      exchange_code_for_token cfg (.resp 200 text (some body))
        = .error { message := cfg.provider_name ++ " OAuth 错误: "
                     ++ (jsonGetD body "error_description"
                          (jsonGet body "error")).pyStr
                   details := body }) := by
  refine ⟨rfl, ?_, ?_⟩
  · intro h
    simp [exchange_code_for_token, h]
  · intro h
    simp [exchange_code_for_token, h]

/-- C7 witness (the spec's scenario): GitHub token endpoint answering
HTTP 400 with body `\x7b"error": "invalid_grant"\x7d` fails with
`OAuthTokenExchangeError` whose diagnostic detail contains the raw body —
which contains `"invalid_grant"`. -/
theorem exchange_code_for_token_failure_taxonomy_witness :
    exchange_code_for_token (get_github_config {})
        (.resp 400 "\x7b\"error\": \"invalid_grant\"\x7d"
          (some [("error", .str "invalid_grant")]))
      = .error { message := "GitHub OAuth 令牌交换失败"
                 details := [("status_code", .int 400),
                   ("response", .str "\x7b\"error\": \"invalid_grant\"\x7d"),
                   ("provider", .str "github")] } ∧
    containsSubstr "\x7b\"error\": \"invalid_grant\"\x7d" "invalid_grant" = true := by
  refine ⟨?_, by decide⟩
  exact (exchange_code_for_token_failure_taxonomy (get_github_config {}) 400
    "\x7b\"error\": \"invalid_grant\"\x7d" "" (some [("error", .str "invalid_grant")])
    []).2.1 (by decide)

/-- C9: `from_provider_data` sets `trust_level` to `0` whenever the raw
provider JSON lacks the field the provider's field map assigns to
`trust_level`, for every provider configuration and raw object. -/
theorem from_provider_data_trust_level_defaults (data : JsonObj)
    (cfg : OIDCProviderConfig)
    (h : data.lookup (mappingGetD cfg.user_info_mapping "trust_level" "trust_level")
      = none) :
    (from_provider_data data cfg).trust_level = .int 0 := by
  simp [from_provider_data, jsonGetD, h]

/-- C9 witness: a GitHub user-info payload without a `trust_level` field
normalizes to `trust_level = 0`. -/
theorem from_provider_data_trust_level_defaults_witness :
    (from_provider_data [("login", .str "octocat"), ("id", .int 5)]
        (get_github_config {})).trust_level = .int 0 :=
  from_provider_data_trust_level_defaults
    [("login", .str "octocat"), ("id", .int 5)] (get_github_config {}) (by decide)

/-- C10: on a successful refresh, the returned token set keeps the caller's
refresh token whenever the provider's response has no truthy
`refresh_token` (absent key, JSON `null`, or empty string), and takes the
response's value when it is a non-empty string. -/
theorem refresh_access_token_keeps_caller_token (cfg : OIDCProviderConfig)
    (rt text : String) (body : JsonObj) :
    ∃ d, refresh_access_token cfg rt (.resp 200 text (some body)) = .ok d ∧
      ((jsonGet body "refresh_token" = .null
          ∨ jsonGet body "refresh_token" = .str "") →
        d.refresh_token = .str rt) ∧
      (∀ v, jsonGet body "refresh_token" = .str v → v.isEmpty = false →
        d.refresh_token = .str v) := by
  refine ⟨_, rfl, ?_, ?_⟩
  · rintro (h | h) <;>
      simp [JsonValue.truthy, h, show "".isEmpty = true from rfl]
  · intro v hv hne
    simp [JsonValue.truthy, hv, hne]

/-- C10 witness: a 200 refresh response carrying `refresh_token: null` keeps
the caller's `"old"` token; one carrying `refresh_token: "new"` returns
`"new"`. -/
theorem refresh_access_token_keeps_caller_token_witness :
    (∃ d, refresh_access_token (get_github_config {}) "old"
        (.resp 200 "" (some [("refresh_token", JsonValue.null)])) = .ok d ∧
      d.refresh_token = .str "old") ∧
    (∃ d, refresh_access_token (get_github_config {}) "old"
        (.resp 200 "" (some [("refresh_token", JsonValue.str "new")])) = .ok d ∧
      d.refresh_token = .str "new") := by
  constructor
  · obtain ⟨d, hd, hkeep, _⟩ := refresh_access_token_keeps_caller_token
      (get_github_config {}) "old" "" [("refresh_token", JsonValue.null)]
    exact ⟨d, hd, hkeep (Or.inl (by decide))⟩
  · obtain ⟨d, hd, _, hnew⟩ := refresh_access_token_keeps_caller_token
      (get_github_config {}) "old" "" [("refresh_token", JsonValue.str "new")]
    exact ⟨d, hd, hnew "new" (by decide) (by decide)⟩

end AntiHub
